import Mathlib

/-!
Verification of the UMB weather-station protocol client (`LAN_UMB.py`).

The development shallowly embeds the protocol core of the source file:
the CRC-16 checksum engine (`calc_next_crc_byte`, `calc_crc16`), the
request-frame assembly and response-frame validation halves of
`send_request`, the payload parsers (`parse_data_request`,
`parse_multi_channel_request`, `parse_status_request`,
`parse_readout_time_request`, `parse_device_info`), the status taxonomy
(`checkStatus`) and the query orchestration (`onlineDataQuery`,
`onlineMultiChannelQuery`, `statusQuery`, `readoutTimeQuery`,
`deviceInfoQuery`).

Byte strings are modelled as `List Nat` with each element a byte value
(the Python source only ever constructs bytes objects, so elements are
below 256 wherever that matters; theorems carry the bound explicitly as
hypotheses where it is needed).  Python's forgiving slice semantics
`xs[a:b]` (clamping, never raising) is modelled by `pySlice`.  Python
exceptions become an `Except` error value.  The transport (a TCP
socket) is an external collaborator: the receive half of `send_request`
and the query methods are therefore modelled as functions of the byte
string the transport returned.
-/

namespace LanUMB

/-- Python slice `xs[a:b]` for non-negative indices: clamps, never fails. -/
def pySlice (xs : List Nat) (a b : Nat) : List Nat := (xs.take b).drop a

/-- Python `int.from_bytes(bs, byteorder='little')`; `uintLE [] = 0`. -/
def uintLE : List Nat → Nat
  | [] => 0
  | b :: bs => b + 256 * uintLE bs

/-- Two's-complement reading of a little-endian byte string, as done by
`struct.unpack` with a signed format character of width `bs.length`. -/
def sintLE (bs : List Nat) : Int :=
  if uintLE bs < 2 ^ (8 * bs.length - 1) then (uintLE bs : Int)
  else (uintLE bs : Int) - 2 ^ (8 * bs.length)

/-- Python `n.to_bytes(2, 'little')`.  In the source this is only applied
to CRC-16 values, which are below 2^16 (`calc_crc16_lt`), so the plain
`[n % 256, n / 256]` form is exact there. -/
def toBytes2 (n : Nat) : List Nat := [n % 256, n / 256]

/-- One bit-step of the loop body of `calc_next_crc_byte` (LAN_UMB.py
lines 90-97), acting on the pair (crc_buff, nextbyte). -/
def crcRound (p : Nat × Nat) : Nat × Nat :=
  let x16 := if ((p.1 &&& 0x0001) ^^^ (p.2 &&& 0x01)) ≠ 0 then 0x8408 else 0x0000
  ((p.1 >>> 1) ^^^ x16, p.2 >>> 1)

/-- `calc_next_crc_byte` (LAN_UMB.py lines 89-98): eight bit-steps per byte. -/
def calc_next_crc_byte (crc_buff nextbyte : Nat) : Nat :=
  (crcRound^[8] (crc_buff, nextbyte)).1

/-- `calc_crc16` (LAN_UMB.py lines 100-104): fold the byte steps from the
initial value 0xFFFF. -/
def calc_crc16 (data : List Nat) : Nat :=
  data.foldl calc_next_crc_byte 0xFFFF

/-- The transmit half of `send_request` (LAN_UMB.py lines 109-134): assemble
the request frame SOH VERSION TO TO_CLASS FROM FROM_CLASS LEN STX COMMAND
COMMAND_VERSION payload ETX, then append the little-endian CRC-16 of the
frame so far and the EOT marker.  `LEN` is computed by the source's
counting loop over the payload bytes. -/
def tx_frame (receiver_id command command_version : Nat) (payload : List Nat) :
    List Nat :=
  let LEN := payload.foldl (fun a _ => a + 1) 2
  let core :=
    if payload.length > 0 then
      [1, 0x10, receiver_id, 0x70, 1, 0xF0, LEN, 2, command, command_version]
        ++ payload ++ [3]
    else
      [1, 0x10, receiver_id, 0x70, 1, 0xF0, LEN, 2, command, command_version] ++ [3]
  core ++ toBytes2 (calc_crc16 core) ++ [4]

/-- The Python exceptions that the modelled code can raise: the `UMBError`
raise sites of `send_request` (one constructor per message) and the
`struct.error` that `struct.unpack` raises on a size mismatch. -/
inductive PyError
  /-- "RX-Error! Length of Payload is not valid." -/
  | invalidLength
  /-- "RX-Error! Checksum test failed." -/
  | checksumFailed
  /-- "RX-Error! No Start-of-frame Character" -/
  | noSOH
  /-- "RX-Error! Wrong Version Number" -/
  | wrongVersion
  /-- "RX-Error! Missing STX field" -/
  | noSTX
  /-- "RX-Error! Wrong Command Number" -/
  | wrongCommand
  /-- "RX-Error! Wrong Command Version Number" -/
  | wrongCommandVersion
  /-- a `struct.error` escaping from `struct.unpack` -/
  | structSizeMismatch
  deriving DecidableEq, Repr

/-- The checks of `send_request` that run on the (possibly trimmed)
received frame, after the length-field check and stale-data trimming
(LAN_UMB.py lines 160-186).  `length` is the value of the length field
that was read from the frame before trimming. -/
def rx_checks (command command_version length : Nat) (rx_frame : List Nat) :
    Except PyError (Option (List Nat)) :=
  let cs_calculated := toBytes2 (calc_crc16 (rx_frame.take (rx_frame.length - 3)))
  let cs_received := pySlice rx_frame (rx_frame.length - 3) (rx_frame.length - 1)
  if cs_calculated ≠ cs_received then .error .checksumFailed
  else if pySlice rx_frame 0 1 ≠ [1] then .error .noSOH
  else if pySlice rx_frame 1 2 ≠ [0x10] then .error .wrongVersion
  else if pySlice rx_frame 7 8 ≠ [2] then .error .noSTX
  else if pySlice rx_frame 8 9 ≠ [command] then .error .wrongCommand
  else if pySlice rx_frame 9 10 ≠ [command_version] then .error .wrongCommandVersion
  else .ok (some (pySlice rx_frame 10 (8 + length)))

/-- The receive half of `send_request` (LAN_UMB.py lines 146-186), as a
function of the bytes `rx_frame` returned by the transport.  `.ok none`
models the `return(0)` taken when nothing was received; `.ok (some p)`
models `return(payload)`; `.error e` models a raised `UMBError`. -/
def send_request_rx (command command_version : Nat) (rx_frame : List Nat) :
    Except PyError (Option (List Nat)) :=
  if rx_frame.length = 0 then .ok none
  else
    let length := uintLE (pySlice rx_frame 6 7)
    if pySlice rx_frame (8 + length) (9 + length) ≠ [3] then .error .invalidLength
    else
      rx_checks command command_version length
        (if rx_frame.length > length + 12 then rx_frame.drop (length + 12) else rx_frame)

/-- The exact value denoted by an IEEE-754 floating-point bit pattern:
either a finite rational, a signed infinity, or a NaN. -/
inductive FloatVal
  | finite (q : ℚ)
  | inf (neg : Bool)
  | nan
  deriving DecidableEq, Repr

/-- Exact semantics of `struct.unpack('<f', ·)`: the IEEE-754 binary32
value denoted by the 32-bit pattern `bits` (sign, biased exponent,
mantissa).  A normal number is sign * (2^23 + m) * 2^(e-150); a
subnormal is sign * m * 2^(-149). -/
def decodeF32 (bits : Nat) : FloatVal :=
  let s := (bits >>> 31) &&& 1
  let e := (bits >>> 23) &&& 0xFF
  let m := bits &&& 0x7FFFFF
  if e = 0xFF then (if m = 0 then .inf (s == 1) else .nan)
  else if e = 0 then .finite ((if s = 0 then 1 else -1) * (m : ℚ) * 2 / 2 ^ 150)
  else .finite ((if s = 0 then 1 else -1) * ((2 ^ 23 + m : ℚ)) * 2 ^ e / 2 ^ 150)

/-- Exact semantics of `struct.unpack('<d', ·)`: the IEEE-754 binary64
value denoted by the 64-bit pattern `bits`. -/
def decodeF64 (bits : Nat) : FloatVal :=
  let s := (bits >>> 63) &&& 1
  let e := (bits >>> 52) &&& 0x7FF
  let m := bits &&& 0xFFFFFFFFFFFFF
  if e = 0x7FF then (if m = 0 then .inf (s == 1) else .nan)
  else if e = 0 then .finite ((if s = 0 then 1 else -1) * (m : ℚ) * 2 / 2 ^ 1075)
  else .finite ((if s = 0 then 1 else -1) * ((2 ^ 52 + m : ℚ)) * 2 ^ e / 2 ^ 1075)

/-- A Python number as returned by the parsers: an `int` or a `float`. -/
inductive PyNum
  | int (z : ℤ)
  | flt (x : FloatVal)
  deriving DecidableEq, Repr

/-- `struct.unpack` with an unsigned integer format character of width `w`
('<B', '<H', '<L'): raises `struct.error` unless the byte string has
exactly `w` bytes, else reads them little endian. -/
def unpackU (w : Nat) (bs : List Nat) : Except PyError PyNum :=
  if bs.length = w then .ok (.int (uintLE bs)) else .error .structSizeMismatch

/-- `struct.unpack` with a signed integer format character of width `w`
('<b', '<h', '<l'): exact-size check, then two's-complement reading. -/
def unpackS (w : Nat) (bs : List Nat) : Except PyError PyNum :=
  if bs.length = w then .ok (.int (sintLE bs)) else .error .structSizeMismatch

/-- `struct.unpack('<f', bs)`. -/
def unpackF32 (bs : List Nat) : Except PyError PyNum :=
  if bs.length = 4 then .ok (.flt (decodeF32 (uintLE bs))) else .error .structSizeMismatch

/-- `struct.unpack('<d', bs)`. -/
def unpackF64 (bs : List Nat) : Except PyError PyNum :=
  if bs.length = 8 then .ok (.flt (decodeF64 (uintLE bs))) else .error .structSizeMismatch

/-- `parse_data_request` (LAN_UMB.py lines 191-213): read the type tag at
payload offset 3 and dispatch on it; an unmatched tag leaves the initial
`value = 0` in place. -/
def parse_data_request (payload : List Nat) : Except PyError PyNum :=
  let type_of_value := uintLE (pySlice payload 3 4)
  if type_of_value = 16 then unpackU 1 (pySlice payload 4 5)
  else if type_of_value = 17 then unpackS 1 (pySlice payload 4 5)
  else if type_of_value = 18 then unpackU 2 (pySlice payload 4 6)
  else if type_of_value = 19 then unpackS 2 (pySlice payload 4 6)
  else if type_of_value = 20 then unpackU 4 (pySlice payload 4 8)
  else if type_of_value = 21 then unpackS 4 (pySlice payload 4 8)
  else if type_of_value = 22 then unpackF32 (pySlice payload 4 8)
  else if type_of_value = 23 then unpackF64 (pySlice payload 4 12)
  else .ok (.int 0)

/-- The loop of `parse_multi_channel_request` (LAN_UMB.py lines 221-229):
`i` counts the remaining iterations, `ptr` is the cursor, `acc` the
accumulated value list. -/
def multiLoop (payload : List Nat) : Nat → Nat → List PyNum →
    Except PyError (List PyNum)
  | 0, _, acc => .ok acc
  | i + 1, ptr, acc =>
    let nsub := uintLE (pySlice payload ptr (ptr + 1))
    match parse_data_request (pySlice payload (ptr + 1) (ptr + nsub + 2)) with
    | .error e => .error e
    | .ok value => multiLoop payload i (ptr + nsub + 1) (acc ++ [value])

/-- `parse_multi_channel_request` (LAN_UMB.py lines 216-231): read the
declared count at offset 1, then iterate the length-prefixed entries. -/
def parse_multi_channel_request (payload : List Nat) :
    Except PyError (List PyNum) :=
  multiLoop payload (uintLE (pySlice payload 1 2)) 2 []

/-- `parse_status_request` (LAN_UMB.py lines 234-237). -/
def parse_status_request (payload : List Nat) : Nat :=
  uintLE (pySlice payload 1 2)

/-- `parse_readout_time_request` (LAN_UMB.py lines 300-303). -/
def parse_readout_time_request (payload : List Nat) : Nat :=
  uintLE (pySlice payload 1 4)

/-- `parse_device_info` (LAN_UMB.py lines 306-311): prints the payload and
always returns 0. -/
def parse_device_info (_payload : List Nat) : Nat := 0

/-- `checkStatus` (LAN_UMB.py lines 239-297).  The Python if/elif chain
has no else branch, so an unmatched status code falls off the end of the
function and yields `None`, modelled by `Option.none`. -/
def checkStatus (status : Nat) : Option String :=
  if status = 0 then some ("Command successful; no error; all OK")
  else if status = 16 then some ("Unknown command; not supported by this device")
  else if status = 17 then some ("Status: ungÃ¼ltige Parameter")
  else if status = 18 then some ("Invalid parameter")
  else if status = 19 then some ("Invalid version of the command")
  else if status = 20 then some ("Invalid password for command")
  else if status = 32 then some ("Read error")
  else if status = 33 then some ("Write error")
  else if status = 34 then
    some ("Length too great; max. permissible length is designated in <maxlength>")
  else if status = 35 then some ("Invalid address / storage location")
  else if status = 36 then some ("Invalid channel")
  else if status = 37 then some ("Command not possible in this mode")
  else if status = 38 then some ("Unknown calibration command")
  else if status = 39 then some ("Calibration error")
  else if status = 40 then
    some ("Device not ready; e.g. initialisation / calibration running")
  else if status = 41 then some ("Undervoltage")
  else if status = 42 then some ("Hardware error")
  else if status = 43 then some ("Measurement error")
  else if status = 44 then some ("Error on device initialization")
  else if status = 45 then some ("Error in operating system")
  else if status = 48 then
    some ("Configuration error, default configuration was loaded")
  else if status = 49 then
    some ("Calibration error / the calibration is invalid, measurement not possible")
  else if status = 50 then
    some ("CRC error on loading configuration; default configuration was loaded")
  else if status = 51 then
    some ("CRC error on loading calibration; measurement not possible")
  else if status = 52 then some ("Calibration step 1")
  else if status = 53 then some ("Calibrations OK")
  else if status = 54 then some ("Channel deactivated")
  else none

/-- The status codes enumerated by the `checkStatus` if/elif chain. -/
def statusCodes : List Nat :=
  [0, 16, 17, 18, 19, 20, 32, 33, 34, 35, 36, 37, 38, 39, 40, 41, 42, 43, 44,
   45, 48, 49, 50, 51, 52, 53, 54]

/-- `onlineDataQuery` (LAN_UMB.py lines 314-320), as a function of the
bytes the transport returned for the 0x23 request: `value` starts at 0
and is replaced by the parsed value only when a payload was received. -/
def onlineDataQuery (rx_frame : List Nat) : Except PyError PyNum :=
  match send_request_rx 0x23 0x10 rx_frame with
  | .error e => .error e
  | .ok none => .ok (.int 0)
  | .ok (some payload) => parse_data_request payload

/-- `onlineMultiChannelQuery` (LAN_UMB.py lines 322-332), response side. -/
def onlineMultiChannelQuery (rx_frame : List Nat) : Except PyError (List PyNum) :=
  match send_request_rx 0x2F 0x10 rx_frame with
  | .error e => .error e
  | .ok none => .ok []
  | .ok (some payload) => parse_multi_channel_request payload

/-- `statusQuery` (LAN_UMB.py lines 334-340), response side: `status`
starts at -1 and is replaced only when a payload was received. -/
def statusQuery (rx_frame : List Nat) : Except PyError Int :=
  match send_request_rx 0x26 0x10 rx_frame with
  | .error e => .error e
  | .ok none => .ok (-1)
  | .ok (some payload) => .ok (parse_status_request payload)

/-- `readoutTimeQuery` (LAN_UMB.py lines 342-348), response side: `ts`
starts at 0. -/
def readoutTimeQuery (rx_frame : List Nat) : Except PyError Nat :=
  match send_request_rx 0x28 0x10 rx_frame with
  | .error e => .error e
  | .ok none => .ok 0
  | .ok (some payload) => .ok (parse_readout_time_request payload)

/-- The result of `deviceInfoQuery`: the initial sentinel is the bytes
object b'' while a parsed result is the int from `parse_device_info`. -/
inductive InfoResult
  | bytes (bs : List Nat)
  | num (n : Nat)
  deriving DecidableEq, Repr

/-- `deviceInfoQuery` (LAN_UMB.py lines 350-363), response side: `info`
starts at b''. -/
def deviceInfoQuery (rx_frame : List Nat) : Except PyError InfoResult :=
  match send_request_rx 0x2D 0x10 rx_frame with
  | .error e => .error e
  | .ok none => .ok (.bytes [])
  | .ok (some payload) => .ok (.num (parse_device_info payload))

/-! ## Helper lemmas about slices and frames -/

/-- Counting loop: `LEN = 2; for payload_byte in payload: LEN += 1`. -/
theorem list_foldl_count (xs : List Nat) (n : Nat) :
    xs.foldl (fun a _ => a + 1) n = n + xs.length := by
  induction xs generalizing n with
  | nil => simp
  | cons x xs ih => simp only [List.foldl_cons, ih, List.length_cons]; omega

/-- Normal form of the transmit frame. -/
theorem tx_frame_eq (r c v : Nat) (p : List Nat) :
    tx_frame r c v p =
      ([1, 0x10, r, 0x70, 1, 0xF0, 2 + p.length, 2, c, v] ++ p ++ [3])
        ++ toBytes2 (calc_crc16
            ([1, 0x10, r, 0x70, 1, 0xF0, 2 + p.length, 2, c, v] ++ p ++ [3]))
        ++ [4] := by
  unfold tx_frame
  rw [list_foldl_count]
  cases p with
  | nil => simp
  | cons a as => simp

/-- A Python slice that spans exactly the middle part of a concatenation. -/
theorem pySlice_middle (pre mid post : List Nat) (a b : Nat)
    (ha : a = pre.length) (hb : b = pre.length + mid.length) :
    pySlice (pre ++ mid ++ post) a b = mid := by
  subst ha hb
  unfold pySlice
  rw [List.take_left' (by simp), List.drop_left' rfl]

/-- A Python slice starting at or past the end of the list is empty. -/
theorem pySlice_of_le (xs : List Nat) (a b : Nat) (h : xs.length ≤ a) :
    pySlice xs a b = [] := by
  unfold pySlice
  refine List.drop_eq_nil_of_le (le_trans ?_ h)
  rw [List.length_take]
  exact Nat.min_le_right _ _

/-- Setting an element below the window of a slice leaves the slice alone. -/
theorem pySlice_set_lt (xs : List Nat) (i z a b : Nat) (h : i < a) :
    pySlice (xs.set i z) a b = pySlice xs a b := by
  unfold pySlice
  rw [List.set_take, List.drop_set, if_pos h]

/-- Setting an element at or past the end of a slice window leaves the slice alone. -/
theorem pySlice_set_ge (xs : List Nat) (i z a b : Nat) (h : b ≤ i) :
    pySlice (xs.set i z) a b = pySlice xs a b := by
  unfold pySlice
  rw [List.set_take, List.set_eq_of_length_le (le_trans (List.length_take_le b xs) h)]

/-- A slice whose window ends inside the left part of an append only sees
the left part. -/
theorem pySlice_append_left (l₁ l₂ : List Nat) (a b : Nat) (hb : b ≤ l₁.length) :
    pySlice (l₁ ++ l₂) a b = pySlice l₁ a b := by
  unfold pySlice
  rw [List.take_append_of_le_length hb]

/-- A slice that starts at the boundary of an append and whose window covers
the whole right part returns the right part. -/
theorem pySlice_append_right (l₁ l₂ : List Nat) (a b : Nat) (ha : a = l₁.length)
    (hb : l₁.length + l₂.length ≤ b) : pySlice (l₁ ++ l₂) a b = l₂ := by
  subst ha
  unfold pySlice
  rw [List.take_of_length_le (by simpa using hb), List.drop_left' rfl]

/-- The response checks accept a frame assembled by `tx_frame` and return
its inner payload: the central shared lemma behind the round-trip and
stale-data-trimming claims. -/
theorem rx_checks_tx (c v r : Nat) (p : List Nat) :
    rx_checks c v (2 + p.length) (tx_frame r c v p) = .ok (some p) := by
  rw [tx_frame_eq]
  set hdr : List Nat := [1, 0x10, r, 0x70, 1, 0xF0, 2 + p.length, 2, c, v] with hhdr
  set core : List Nat := hdr ++ p ++ [3] with hcore
  set cs : List Nat := toBytes2 (calc_crc16 core) with hcs
  have hcsl : cs.length = 2 := rfl
  have hhdrl : hdr.length = 10 := rfl
  have hcorel : core.length = 11 + p.length := by
    simp [hcore, hhdrl]
    omega
  have hFlen : ((core ++ cs) ++ [4]).length = 14 + p.length := by
    simp [hcorel, hcsl]
    omega
  simp only [rx_checks, hFlen]
  have htake : ((core ++ cs) ++ [4]).take (14 + p.length - 3) = core := by
    rw [List.take_append_of_le_length (by simp [hcorel, hcsl]; omega)]
    exact List.take_left' (by omega)
  have hrecv : pySlice ((core ++ cs) ++ [4]) (14 + p.length - 3) (14 + p.length - 1) = cs := by
    rw [pySlice_append_left _ _ _ _ (by simp [hcorel, hcsl]; omega)]
    exact pySlice_append_right _ _ _ _ (by omega) (by simp [hcorel, hcsl]; omega)
  rw [htake, hrecv]
  have hsoh : pySlice ((core ++ cs) ++ [4]) 0 1 = [1] := by
    rw [pySlice_append_left _ _ _ _ (by simp only [List.length_append, hcorel, hcsl]; omega),
        pySlice_append_left _ _ _ _ (by rw [hcorel]; omega), hcore,
        pySlice_append_left _ _ _ _ (by simp only [List.length_append, hhdrl]; omega),
        pySlice_append_left _ _ _ _ (by rw [hhdrl]; omega)]
    rfl
  have hver : pySlice ((core ++ cs) ++ [4]) 1 2 = [0x10] := by
    rw [pySlice_append_left _ _ _ _ (by simp only [List.length_append, hcorel, hcsl]; omega),
        pySlice_append_left _ _ _ _ (by rw [hcorel]; omega), hcore,
        pySlice_append_left _ _ _ _ (by simp only [List.length_append, hhdrl]; omega),
        pySlice_append_left _ _ _ _ (by rw [hhdrl]; omega)]
    rfl
  have hstx : pySlice ((core ++ cs) ++ [4]) 7 8 = [2] := by
    rw [pySlice_append_left _ _ _ _ (by simp only [List.length_append, hcorel, hcsl]; omega),
        pySlice_append_left _ _ _ _ (by rw [hcorel]; omega), hcore,
        pySlice_append_left _ _ _ _ (by simp only [List.length_append, hhdrl]; omega),
        pySlice_append_left _ _ _ _ (by rw [hhdrl]; omega)]
    rfl
  have hcmd : pySlice ((core ++ cs) ++ [4]) 8 9 = [c] := by
    rw [pySlice_append_left _ _ _ _ (by simp only [List.length_append, hcorel, hcsl]; omega),
        pySlice_append_left _ _ _ _ (by rw [hcorel]; omega), hcore,
        pySlice_append_left _ _ _ _ (by simp only [List.length_append, hhdrl]; omega),
        pySlice_append_left _ _ _ _ (by rw [hhdrl]; omega)]
    rfl
  have hcmdv : pySlice ((core ++ cs) ++ [4]) 9 10 = [v] := by
    rw [pySlice_append_left _ _ _ _ (by simp only [List.length_append, hcorel, hcsl]; omega),
        pySlice_append_left _ _ _ _ (by rw [hcorel]; omega), hcore,
        pySlice_append_left _ _ _ _ (by simp only [List.length_append, hhdrl]; omega),
        pySlice_append_left _ _ _ _ (by rw [hhdrl]; try omega)]
    rfl
  have hpay : pySlice ((core ++ cs) ++ [4]) 10 (8 + (2 + p.length)) = p := by
    rw [pySlice_append_left _ _ _ _ (by simp only [List.length_append, hcorel, hcsl]; omega),
        pySlice_append_left _ _ _ _ (by rw [hcorel]; omega), hcore]
    exact pySlice_middle hdr p [3] _ _ (by rw [hhdrl]) (by rw [hhdrl]; omega)
  rw [hsoh, hver, hstx, hcmd, hcmdv, hpay]
  simp

/-- Feeding a `tx_frame` straight back into the receive half of
`send_request` succeeds and recovers the inner payload. -/
theorem send_request_rx_tx (c v r : Nat) (p : List Nat) :
    send_request_rx c v (tx_frame r c v p) = .ok (some p) := by
  have hmain := rx_checks_tx c v r p
  rw [tx_frame_eq] at hmain ⊢
  set hdr : List Nat := [1, 0x10, r, 0x70, 1, 0xF0, 2 + p.length, 2, c, v] with hhdr
  set core : List Nat := hdr ++ p ++ [3] with hcore
  set cs : List Nat := toBytes2 (calc_crc16 core) with hcs
  have hcsl : cs.length = 2 := rfl
  have hhdrl : hdr.length = 10 := rfl
  have hcorel : core.length = 11 + p.length := by
    simp [hcore, hhdrl]
    omega
  have hFlen : ((core ++ cs) ++ [4]).length = 14 + p.length := by
    simp [hcorel, hcsl]
    omega
  have hlenfield : pySlice ((core ++ cs) ++ [4]) 6 7 = [2 + p.length] := by
    rw [pySlice_append_left _ _ _ _ (by simp only [List.length_append, hcorel, hcsl]; omega),
        pySlice_append_left _ _ _ _ (by rw [hcorel]; omega), hcore,
        pySlice_append_left _ _ _ _ (by simp only [List.length_append, hhdrl]; omega),
        pySlice_append_left _ _ _ _ (by rw [hhdrl]; omega)]
    rfl
  have huint : uintLE [2 + p.length] = 2 + p.length := by
    simp [uintLE]
  have hETX : pySlice ((core ++ cs) ++ [4]) (8 + (2 + p.length)) (9 + (2 + p.length))
      = [3] := by
    rw [pySlice_append_left _ _ _ _ (by simp only [List.length_append, hcorel, hcsl]; omega),
        pySlice_append_left _ _ _ _ (by rw [hcorel]; try omega), hcore]
    exact pySlice_append_right (hdr ++ p) [3] _ _
      (by simp only [List.length_append, hhdrl]; omega)
      (by simp only [List.length_append, List.length_cons, List.length_nil, hhdrl]; omega)
  simp only [send_request_rx, hFlen, hlenfield, huint]
  rw [if_neg (by omega), if_neg (by rw [hETX]; simp), if_neg (by omega)]
  exact hmain

/-! ## Claim C2: the checksum algorithm -/

/-- Statement of one bit-step of the CRC as the specification words it:
XOR the right-shifted running value with 0x8408 exactly when the XOR of
the low bit of the running value and the low bit of the byte is set,
else with zero. -/
def crcBitStep (crc byte : Nat) : Nat :=
  (crc >>> 1) ^^^ (if ((crc &&& 1) ^^^ (byte &&& 1)) ≠ 0 then 0x8408 else 0)

/-- `n` bit-steps of `crcBitStep`, shifting the byte right once per step. -/
def crcByteSteps : Nat → Nat → Nat → Nat
  | 0, crc, _ => crc
  | n + 1, crc, byte => crcByteSteps n (crcBitStep crc byte) (byte >>> 1)

/-- The iterated pair-round of the source equals the specification's
bit-step recursion. -/
theorem crcRound_iterate (n crc byte : Nat) :
    (crcRound^[n] (crc, byte)).1 = crcByteSteps n crc byte := by
  induction n generalizing crc byte with
  | zero => rfl
  | succ n ih =>
    rw [Function.iterate_succ_apply]
    exact ih (crcBitStep crc byte) (byte >>> 1)

/-- C2: the checksum function is the described CRC-16: initial running
value 0xFFFF, one byte at a time, 8 bit-steps per byte, each step XORing
the right-shifted running value with 0x8408 exactly when the XOR of the
low bits of the running value and the byte is set; it is a pure function
of the data, and the checksum of the empty byte sequence is 0xFFFF. -/
theorem C2_checksum_algorithm :
    calc_crc16 [] = 0xFFFF ∧
    (∀ crc byte : Nat, calc_next_crc_byte crc byte = crcByteSteps 8 crc byte) ∧
    (∀ data : List Nat, calc_crc16 data = data.foldl calc_next_crc_byte 0xFFFF) :=
  ⟨rfl, fun crc byte => crcRound_iterate 8 crc byte, fun _ => rfl⟩

/-! ## Claim C3: encode layout -/

/-- C3: the encoded request frame is exactly the header bytes 0x01 0x10 r
0x70 0x01 0xF0 (2+len p) 0x02 c v, the payload, 0x03, the two
little-endian bytes of the CRC-16 of everything so far, and 0x04. -/
theorem C3_encode_layout (receiver_id command command_version : Nat)
    (payload : List Nat) (_hp : payload.length ≤ 253) :
    tx_frame receiver_id command command_version payload =
      [0x01, 0x10, receiver_id, 0x70, 0x01, 0xF0, 2 + payload.length, 0x02,
        command, command_version] ++ payload ++ [0x03]
      ++ toBytes2 (calc_crc16
          ([0x01, 0x10, receiver_id, 0x70, 0x01, 0xF0, 2 + payload.length, 0x02,
            command, command_version] ++ payload ++ [0x03]))
      ++ [0x04] :=
  tx_frame_eq receiver_id command command_version payload

/-- Witness for C3 at a concrete channel-100 request. -/
theorem C3_encode_layout_witness :
    tx_frame 1 0x23 0x10 [100, 0] =
      [0x01, 0x10, 1, 0x70, 0x01, 0xF0, 2 + ([100, 0] : List Nat).length, 0x02,
        0x23, 0x10] ++ [100, 0] ++ [0x03]
      ++ toBytes2 (calc_crc16
          ([0x01, 0x10, 1, 0x70, 0x01, 0xF0, 2 + ([100, 0] : List Nat).length, 0x02,
            0x23, 0x10] ++ [100, 0] ++ [0x03]))
      ++ [0x04] :=
  C3_encode_layout 1 0x23 0x10 [100, 0] (by decide)

/-! ## Claim C1: round trip -/

/-- C1: for every receiver address, command byte, command-version byte and
inner payload of at most 253 bytes, feeding the frame produced by the
encode step of `send_request` back in as the received bytes makes the
decode step succeed and return exactly the original inner payload. -/
theorem C1_roundtrip (receiver_id command command_version : Nat)
    (payload : List Nat) (_hr : receiver_id < 256) (_hc : command < 256)
    (_hv : command_version < 256) (_hp : payload.length ≤ 253) :
    send_request_rx command command_version
      (tx_frame receiver_id command command_version payload) = .ok (some payload) :=
  send_request_rx_tx command command_version receiver_id payload

/-- Witness for C1 at a concrete channel-100 request frame. -/
theorem C1_roundtrip_witness :
    send_request_rx 0x23 0x10 (tx_frame 1 0x23 0x10 [100, 0]) = .ok (some [100, 0]) :=
  C1_roundtrip 1 0x23 0x10 [100, 0] (by decide) (by decide) (by decide) (by decide)

/-! ## Claim C5: truncated multi-channel payloads -/

/-- C5 counterexample: a multi-channel payload declaring two entries but
containing none makes `parse_multi_channel_request` silently return two
zero values instead of failing with a malformed-frame error. -/
theorem C5_counterexample :
    parse_multi_channel_request [0, 2] = .ok [.int 0, .int 0] := rfl

/-- Once the cursor is past the end of the payload, every remaining
iteration of the multi-channel loop appends the integer 0. -/
theorem multiLoop_past_end (payload : List Nat) (m : Nat) :
    ∀ (ptr : Nat) (acc : List PyNum), payload.length ≤ ptr →
      multiLoop payload m ptr acc = .ok (acc ++ List.replicate m (.int 0)) := by
  induction m with
  | zero => intro ptr acc _; simp [multiLoop]
  | succ m ih =>
    intro ptr acc h
    rw [multiLoop]
    rw [pySlice_of_le _ _ _ h, pySlice_of_le _ _ _ (le_trans h (by omega))]
    show multiLoop payload m (ptr + uintLE [] + 1) (acc ++ [.int 0])
      = .ok (acc ++ List.replicate (m + 1) (.int 0))
    rw [ih (ptr + uintLE [] + 1) (acc ++ [PyNum.int 0]) (le_trans h (by omega))]
    simp [List.replicate_succ]

/-- C5 amended: the code does not detect truncation.  For a multi-channel
payload that declares a count `n` but is truncated before the first
entry, the decoder silently returns `n` zero values (out-of-range reads
yield empty slices, which decode as integer 0), with no error raised. -/
theorem C5_truncated_returns_zeros (x n : Nat) :
    parse_multi_channel_request [x, n] = .ok (List.replicate n (.int 0)) := by
  unfold parse_multi_channel_request
  have h2 : uintLE (pySlice [x, n] 1 2) = n := by
    simp [pySlice, uintLE]
  rw [h2]
  simpa using multiLoop_past_end [x, n] n 2 [] (by simp)

/-! ## Claim C6: status taxonomy -/

/-- C6 counterexample: status code 255 is outside the enumerated table and
`checkStatus` returns Python `None` for it (the if/elif chain has no else
branch), not an explicit "unrecognized status" text. -/
theorem C6_counterexample : checkStatus 255 = none := rfl

/-- C6 amended: `checkStatus` returns the success text for 0 and a
descriptive text for every code of the enumerated table, but for every
code outside the table it returns `None` (a silent null, no crash)
rather than an explicit "unrecognized status" indicator. -/
theorem C6_status_taxonomy :
    checkStatus 0 = some ("Command successful; no error; all OK") ∧
    (∀ s, s ∈ statusCodes → (checkStatus s).isSome = true) ∧
    (∀ s, s ∉ statusCodes → checkStatus s = none) := by
  refine ⟨rfl, ?_, ?_⟩
  · intro s hs
    fin_cases hs <;> rfl
  · intro s hs
    simp only [statusCodes, List.mem_cons, List.not_mem_nil, or_false, not_or] at hs
    obtain ⟨h0, h16, h17, h18, h19, h20, h32, h33, h34, h35, h36, h37, h38, h39,
      h40, h41, h42, h43, h44, h45, h48, h49, h50, h51, h52, h53, h54⟩ := hs
    simp [checkStatus, h0, h16, h17, h18, h19, h20, h32, h33, h34, h35, h36, h37,
      h38, h39, h40, h41, h42, h43, h44, h45, h48, h49, h50, h51, h52, h53, h54]

/-- Witness for C6 at a mapped code (16) and an unmapped code (255). -/
theorem C6_status_taxonomy_witness :
    (checkStatus 16).isSome = true ∧ checkStatus 255 = none :=
  ⟨C6_status_taxonomy.2.1 16 (by decide), C6_status_taxonomy.2.2 255 (by decide)⟩

/-! ## Claim C7: empty transport read -/

/-- C7: when the transport returns zero bytes, every query operation
raises no exception and returns its caller-visible "no value" sentinel:
0 for the single-channel query, [] for the multi-channel query, -1 for
the status query, 0 for the elapsed-time query and b'' for the
device-info query. -/
theorem C7_empty_receive_sentinels :
    onlineDataQuery [] = .ok (.int 0) ∧
    onlineMultiChannelQuery [] = .ok [] ∧
    statusQuery [] = .ok (-1) ∧
    readoutTimeQuery [] = .ok 0 ∧
    deviceInfoQuery [] = .ok (.bytes []) :=
  ⟨rfl, rfl, rfl, rfl, rfl⟩

/-! ## Claim C4: value decoding -/

/-- Length of a Python slice. -/
theorem pySlice_length (xs : List Nat) (a b : Nat) :
    (pySlice xs a b).length = min b xs.length - a := by
  simp [pySlice, List.length_drop, List.length_take]

/-- C4: for every payload whose type tag (payload byte 3) is one of the
eight recognized tags 16..23 and that carries the bytes the tag calls
for, `parse_data_request` returns those little-endian bytes read as
unsigned-8 / signed-8 / unsigned-16 / signed-16 / unsigned-32 /
signed-32 / IEEE-754 binary32 / binary64 respectively; every payload
with an unrecognized tag yields integer 0 rather than a failure; and the
three concrete examples of the specification hold. -/
theorem C4_value_decoding :
    (∀ p : List Nat, uintLE (pySlice p 3 4) = 16 → 5 ≤ p.length →
        parse_data_request p = .ok (.int (uintLE (pySlice p 4 5)))) ∧
    (∀ p : List Nat, uintLE (pySlice p 3 4) = 17 → 5 ≤ p.length →
        parse_data_request p = .ok (.int (sintLE (pySlice p 4 5)))) ∧
    (∀ p : List Nat, uintLE (pySlice p 3 4) = 18 → 6 ≤ p.length →
        parse_data_request p = .ok (.int (uintLE (pySlice p 4 6)))) ∧
    (∀ p : List Nat, uintLE (pySlice p 3 4) = 19 → 6 ≤ p.length →
        parse_data_request p = .ok (.int (sintLE (pySlice p 4 6)))) ∧
    (∀ p : List Nat, uintLE (pySlice p 3 4) = 20 → 8 ≤ p.length →
        parse_data_request p = .ok (.int (uintLE (pySlice p 4 8)))) ∧
    (∀ p : List Nat, uintLE (pySlice p 3 4) = 21 → 8 ≤ p.length →
        parse_data_request p = .ok (.int (sintLE (pySlice p 4 8)))) ∧
    (∀ p : List Nat, uintLE (pySlice p 3 4) = 22 → 8 ≤ p.length →
        parse_data_request p = .ok (.flt (decodeF32 (uintLE (pySlice p 4 8))))) ∧
    (∀ p : List Nat, uintLE (pySlice p 3 4) = 23 → 12 ≤ p.length →
        parse_data_request p = .ok (.flt (decodeF64 (uintLE (pySlice p 4 12))))) ∧
    (∀ p : List Nat,
        uintLE (pySlice p 3 4) ∉ [16, 17, 18, 19, 20, 21, 22, 23] →
        parse_data_request p = .ok (.int 0)) ∧
    parse_data_request [0, 0, 0, 22, 0x00, 0x00, 0x80, 0x3F] = .ok (.flt (.finite 1)) ∧
    parse_data_request [0, 0, 0, 16, 0xFF] = .ok (.int 255) ∧
    parse_data_request [0, 0, 0, 21, 0xFF, 0xFF, 0xFF, 0xFF] = .ok (.int (-1)) := by
  refine ⟨?_, ?_, ?_, ?_, ?_, ?_, ?_, ?_, ?_, ?_, ?_, ?_⟩
  · intro p htag hlen
    have hl : (pySlice p 4 5).length = 1 := by rw [pySlice_length]; omega
    simp [parse_data_request, htag, unpackU, hl]
  · intro p htag hlen
    have hl : (pySlice p 4 5).length = 1 := by rw [pySlice_length]; omega
    simp [parse_data_request, htag, unpackS, hl]
  · intro p htag hlen
    have hl : (pySlice p 4 6).length = 2 := by rw [pySlice_length]; omega
    simp [parse_data_request, htag, unpackU, hl]
  · intro p htag hlen
    have hl : (pySlice p 4 6).length = 2 := by rw [pySlice_length]; omega
    simp [parse_data_request, htag, unpackS, hl]
  · intro p htag hlen
    have hl : (pySlice p 4 8).length = 4 := by rw [pySlice_length]; omega
    simp [parse_data_request, htag, unpackU, hl]
  · intro p htag hlen
    have hl : (pySlice p 4 8).length = 4 := by rw [pySlice_length]; omega
    simp [parse_data_request, htag, unpackS, hl]
  · intro p htag hlen
    have hl : (pySlice p 4 8).length = 4 := by rw [pySlice_length]; omega
    simp [parse_data_request, htag, unpackF32, hl]
  · intro p htag hlen
    have hl : (pySlice p 4 12).length = 8 := by rw [pySlice_length]; omega
    simp [parse_data_request, htag, unpackF64, hl]
  · intro p htag
    simp only [List.mem_cons, List.not_mem_nil, or_false, not_or] at htag
    obtain ⟨n16, n17, n18, n19, n20, n21, n22, n23⟩ := htag
    simp [parse_data_request, n16, n17, n18, n19, n20, n21, n22, n23]
  · have htag : uintLE (pySlice [0, 0, 0, 22, 0x00, 0x00, 0x80, 0x3F] 3 4) = 22 := by
      decide
    have hl : (pySlice [0, 0, 0, 22, 0x00, 0x00, 0x80, 0x3F] 4 8).length = 4 := by
      decide
    have hbits : uintLE (pySlice [0, 0, 0, 22, 0x00, 0x00, 0x80, 0x3F] 4 8)
        = 0x3F800000 := by decide
    have hdec : decodeF32 0x3F800000 = .finite 1 := by
      have hs : ((1065353216 : Nat) >>> 31) &&& 1 = 0 := by decide
      have he : ((1065353216 : Nat) >>> 23) &&& 255 = 127 := by decide
      have hm : (1065353216 : Nat) &&& 8388607 = 0 := by decide
      simp only [decodeF32, hs, he, hm]
      norm_num
    simp [parse_data_request, htag, unpackF32, hl, hbits, hdec]
  · rfl
  · rfl

/-- Witness for C4 at a concrete unsigned-16 payload (bytes 0x34 0x12,
value 0x1234 = 4660). -/
theorem C4_value_decoding_witness :
    parse_data_request [0, 0, 0, 18, 0x34, 0x12] = .ok (.int 4660) := by
  have h := C4_value_decoding.2.2.1 [0, 0, 0, 18, 0x34, 0x12] (by decide) (by decide)
  simpa using h

/-! ## Claim C8: stale-data trimming -/

/-- Total length of a transmit frame. -/
theorem tx_frame_length (r c v : Nat) (p : List Nat) :
    (tx_frame r c v p).length = 14 + p.length := by
  rw [tx_frame_eq]
  simp only [List.length_append, List.length_cons, List.length_nil, toBytes2]
  omega

/-- The length field of a transmit frame. -/
theorem tx_frame_lenfield (r c v : Nat) (p : List Nat) :
    pySlice (tx_frame r c v p) 6 7 = [2 + p.length] := by
  rw [tx_frame_eq]
  rw [pySlice_append_left _ _ _ _ (by simp [toBytes2]; try omega),
      pySlice_append_left _ _ _ _ (by simp; try omega),
      pySlice_append_left _ _ _ _ (by simp; try omega),
      pySlice_append_left _ _ _ _ (by simp; try omega)]
  rfl

/-- The inner-end marker of a transmit frame sits at index `8 + (2 + |p|)`. -/
theorem tx_frame_etx (r c v : Nat) (p : List Nat) :
    pySlice (tx_frame r c v p) (8 + (2 + p.length)) (9 + (2 + p.length)) = [3] := by
  rw [tx_frame_eq]
  rw [pySlice_append_left _ _ _ _ (by simp [toBytes2]; try omega),
      pySlice_append_left _ _ _ _ (by simp; try omega)]
  exact pySlice_append_right _ _ _ _ (by simp; try omega) (by simp; try omega)

set_option maxRecDepth 16384 in
/-- C8 counterexample: a buffer holding two valid frames whose payload
lengths differ (an empty payload, then the payload [9, 9]) is accepted,
but the returned payload is sliced with the stale frame's length field
and is not the later frame's inner payload. -/
theorem C8_counterexample :
    send_request_rx 0x23 0x10 (tx_frame 1 0x23 0x10 [] ++ tx_frame 1 0x23 0x10 [9, 9])
      = .ok (some []) ∧
    send_request_rx 0x23 0x10 (tx_frame 1 0x23 0x10 [] ++ tx_frame 1 0x23 0x10 [9, 9])
      ≠ .ok (some [9, 9]) := by
  have heval : send_request_rx 0x23 0x10
      (tx_frame 1 0x23 0x10 [] ++ tx_frame 1 0x23 0x10 [9, 9]) = .ok (some []) := rfl
  refine ⟨heval, ?_⟩
  rw [heval]
  simp

/-- C8 amended: when the received buffer is two concatenated valid frames
for the expected command *with equal declared payload lengths*, the
decode step discards the leading stale frame and returns the inner
payload of the later frame.  (With unequal lengths the stale frame's
length field corrupts the final payload slice, as the counterexample
shows.) -/
theorem C8_stale_trimming (r1 r2 c v : Nat) (p1 p2 : List Nat)
    (hlen : p1.length = p2.length) (_hp : p2.length ≤ 253) :
    send_request_rx c v (tx_frame r1 c v p1 ++ tx_frame r2 c v p2) = .ok (some p2) := by
  have hmain := rx_checks_tx c v r2 p2
  have hf1 : (tx_frame r1 c v p1).length = 14 + p1.length := tx_frame_length r1 c v p1
  have hL : uintLE (pySlice (tx_frame r1 c v p1 ++ tx_frame r2 c v p2) 6 7)
      = 2 + p1.length := by
    rw [pySlice_append_left _ _ _ _ (by rw [hf1]; omega), tx_frame_lenfield]
    simp [uintLE]
  have hETX : pySlice (tx_frame r1 c v p1 ++ tx_frame r2 c v p2)
      (8 + (2 + p1.length)) (9 + (2 + p1.length)) = [3] := by
    rw [pySlice_append_left _ _ _ _ (by rw [hf1]; omega)]
    exact tx_frame_etx r1 c v p1
  have hblen : (tx_frame r1 c v p1 ++ tx_frame r2 c v p2).length
      = 28 + p1.length + p2.length := by
    simp only [List.length_append, tx_frame_length]
    omega
  simp only [send_request_rx, hL]
  rw [if_neg (by rw [hblen]; omega),
      if_neg (by rw [hETX]; simp),
      if_pos (by rw [hblen]; omega),
      List.drop_left' (by rw [hf1]; omega)]
  rw [hlen]
  exact hmain

/-- Witness for C8 at two concrete equal-length frames. -/
theorem C8_stale_trimming_witness :
    send_request_rx 0x23 0x10 (tx_frame 1 0x23 0x10 [7, 7] ++ tx_frame 1 0x23 0x10 [9, 9])
      = .ok (some [9, 9]) :=
  C8_stale_trimming 1 1 0x23 0x10 [7, 7] [9, 9] (by decide) (by decide)

/-! ## Claim C10: the status query's no-data sentinel -/

/-- A little-endian reading of bytes below 256 is below `256 ^ length`. -/
theorem uintLE_lt (bs : List Nat) (h : ∀ b ∈ bs, b < 256) :
    uintLE bs < 256 ^ bs.length := by
  induction bs with
  | nil => simp [uintLE]
  | cons b bs ih =>
    have hb : b < 256 := h b (by simp)
    have ht := ih (fun x hx => h x (by simp [hx]))
    simp only [uintLE, List.length_cons]
    calc b + 256 * uintLE bs < 256 + 256 * uintLE bs := by omega
      _ = 256 * (uintLE bs + 1) := by ring
      _ ≤ 256 * 256 ^ bs.length := Nat.mul_le_mul_left _ ht
      _ = 256 ^ (bs.length + 1) := by rw [pow_succ]; ring

set_option maxRecDepth 16384 in
/-- C10: on an empty transport read the status query returns -1, which no
genuine parsed status code can equal (they are all in 0..255); by
contrast the single-channel and elapsed-time queries return 0 in that
situation, a value a genuine response can also produce. -/
theorem C10_status_sentinel_distinct :
    statusQuery [] = .ok (-1) ∧
    (∀ p : List Nat, (∀ b ∈ p, b < 256) → parse_status_request p < 256) ∧
    (∀ p : List Nat, (0 : Int) ≤ (parse_status_request p : Int)) ∧
    onlineDataQuery [] = .ok (.int 0) ∧
    onlineDataQuery (tx_frame 1 0x23 0x10 [5, 0, 0, 16, 0]) = .ok (.int 0) ∧
    readoutTimeQuery [] = .ok 0 ∧
    readoutTimeQuery (tx_frame 1 0x28 0x10 [0, 0, 0, 0]) = .ok 0 := by
  refine ⟨rfl, ?_, ?_, rfl, rfl, rfl, rfl⟩
  · intro p hp
    unfold parse_status_request
    have h1 : ∀ b ∈ pySlice p 1 2, b < 256 := by
      intro b hb
      exact hp b (List.mem_of_mem_take (List.mem_of_mem_drop hb))
    have h2 := uintLE_lt _ h1
    have h3 : (pySlice p 1 2).length ≤ 1 := by rw [pySlice_length]; omega
    have h4 : (256 : Nat) ^ (pySlice p 1 2).length ≤ 256 ^ 1 :=
      Nat.pow_le_pow_right (by omega) h3
    calc uintLE (pySlice p 1 2) < 256 ^ (pySlice p 1 2).length := h2
      _ ≤ 256 := h4
  · intro p
    exact Int.natCast_nonneg _

/-- Witness for C10 at a concrete status payload. -/
theorem C10_status_sentinel_distinct_witness :
    parse_status_request [0, 44] < 256 :=
  C10_status_sentinel_distinct.2.1 [0, 44] (by decide)

/-! ## Claim C9: tamper detection

The CRC step is GF(2)-linear in the pair (running value, byte): the
checksum of a frame with one flipped bit differs from the original
checksum by a nonzero syndrome, so the checksum comparison fails. -/

/-- Right shift distributes over XOR. -/
theorem xor_shiftRight_distrib (x y n : Nat) :
    (x ^^^ y) >>> n = (x >>> n) ^^^ (y >>> n) := by
  apply Nat.eq_of_testBit_eq
  intro i
  simp [Nat.testBit_shiftRight, Nat.testBit_xor]

/-- Left commutativity of XOR on Nat. -/
theorem nat_xor_left_comm (a b c : Nat) : a ^^^ (b ^^^ c) = b ^^^ (a ^^^ c) := by
  rw [← Nat.xor_assoc, Nat.xor_comm a b, Nat.xor_assoc]

/-- One CRC round is additive over XOR on both components. -/
theorem crcRound_xor (a₁ a₂ b₁ b₂ : Nat) :
    crcRound (a₁ ^^^ b₁, a₂ ^^^ b₂)
      = ((crcRound (a₁, a₂)).1 ^^^ (crcRound (b₁, b₂)).1,
         (crcRound (a₁, a₂)).2 ^^^ (crcRound (b₁, b₂)).2) := by
  have ha1 : a₁ &&& 1 = 0 ∨ a₁ &&& 1 = 1 := by rw [Nat.and_one_is_mod]; omega
  have ha2 : a₂ &&& 1 = 0 ∨ a₂ &&& 1 = 1 := by rw [Nat.and_one_is_mod]; omega
  have hb1 : b₁ &&& 1 = 0 ∨ b₁ &&& 1 = 1 := by rw [Nat.and_one_is_mod]; omega
  have hb2 : b₂ &&& 1 = 0 ∨ b₂ &&& 1 = 1 := by rw [Nat.and_one_is_mod]; omega
  simp only [crcRound, Nat.and_xor_distrib_right, Prod.mk.injEq]
  constructor
  · rcases ha1 with h1 | h1 <;> rcases ha2 with h2 | h2 <;>
      rcases hb1 with h3 | h3 <;> rcases hb2 with h4 | h4 <;>
      rw [h1, h2, h3, h4] <;>
      simp [xor_shiftRight_distrib, Nat.xor_assoc, Nat.xor_comm, nat_xor_left_comm,
        Nat.xor_self, Nat.xor_zero, Nat.zero_xor]
  · exact xor_shiftRight_distrib a₂ b₂ 1

/-- Iterated CRC rounds are additive over XOR. -/
theorem crcRound_iterate_xor (n : Nat) :
    ∀ a₁ a₂ b₁ b₂ : Nat,
      crcRound^[n] (a₁ ^^^ b₁, a₂ ^^^ b₂)
        = ((crcRound^[n] (a₁, a₂)).1 ^^^ (crcRound^[n] (b₁, b₂)).1,
           (crcRound^[n] (a₁, a₂)).2 ^^^ (crcRound^[n] (b₁, b₂)).2) := by
  induction n with
  | zero => intro a₁ a₂ b₁ b₂; simp
  | succ n ih =>
    intro a₁ a₂ b₁ b₂
    rw [Function.iterate_succ_apply, Function.iterate_succ_apply,
      Function.iterate_succ_apply, crcRound_xor,
      ih (crcRound (a₁, a₂)).1 (crcRound (a₁, a₂)).2
        (crcRound (b₁, b₂)).1 (crcRound (b₁, b₂)).2]

/-- The byte step of the CRC is additive over XOR. -/
theorem calc_next_crc_byte_xor (c₁ c₂ b₁ b₂ : Nat) :
    calc_next_crc_byte (c₁ ^^^ c₂) (b₁ ^^^ b₂)
      = calc_next_crc_byte c₁ b₁ ^^^ calc_next_crc_byte c₂ b₂ := by
  unfold calc_next_crc_byte
  rw [crcRound_iterate_xor 8 c₁ b₁ c₂ b₂]

/-- The CRC fold is additive over pointwise XOR of equal-length lists. -/
theorem foldl_crc_xor : ∀ (xs ys : List Nat), xs.length = ys.length →
    ∀ c d : Nat,
      (List.zipWith (fun a b => a ^^^ b) xs ys).foldl calc_next_crc_byte (c ^^^ d)
        = xs.foldl calc_next_crc_byte c ^^^ ys.foldl calc_next_crc_byte d := by
  intro xs
  induction xs with
  | nil =>
    intro ys h c d
    cases ys with
    | nil => simp
    | cons y ys => simp at h
  | cons x xs ih =>
    intro ys h c d
    cases ys with
    | nil => simp at h
    | cons y ys =>
      simp only [List.zipWith_cons_cons, List.foldl_cons]
      rw [calc_next_crc_byte_xor c d x y]
      exact ih ys (by simpa using h) _ _

/-- XOR with an all-zero list of the same length is the identity. -/
theorem zipWith_xor_zero (xs : List Nat) :
    List.zipWith (fun a b => a ^^^ b) xs (List.replicate xs.length 0) = xs := by
  induction xs with
  | nil => rfl
  | cons x xs ih => simp [List.replicate_succ, ih]

/-- Flipping bits at one position is pointwise XOR with a one-hot list. -/
theorem set_eq_zipWith_xor (data : List Nat) (i h : Nat) (hi : i < data.length) :
    data.set i (data.getD i 0 ^^^ h)
      = List.zipWith (fun a b => a ^^^ b) data
          ((List.replicate data.length 0).set i h) := by
  induction data generalizing i with
  | nil => simp at hi
  | cons x xs ih =>
    cases i with
    | zero =>
      simp only [List.getD_cons_zero, List.set_cons_zero, List.length_cons,
        List.replicate_succ, List.zipWith_cons_cons]
      rw [zipWith_xor_zero]
    | succ i =>
      simp only [List.getD_cons_succ, List.set_cons_succ, List.length_cons,
        List.replicate_succ, List.zipWith_cons_cons, Nat.xor_zero]
      rw [ih i (by simpa using hi)]

/-- A CRC round with byte 0, written on the first component. -/
theorem crcRound_zero_snd (c : Nat) :
    crcRound (c, 0) = ((c >>> 1) ^^^ (if c &&& 1 ≠ 0 then 0x8408 else 0), 0) := by
  simp [crcRound]

/-- A CRC round with byte 0 keeps a nonzero 16-bit state nonzero. -/
theorem crcRound_zero_preserves (c : Nat) (hc : c < 65536) (hne : c ≠ 0) :
    (crcRound (c, 0)).1 ≠ 0 ∧ (crcRound (c, 0)).1 < 65536 := by
  rw [crcRound_zero_snd]
  have h2 : c &&& 1 = c % 2 := Nat.and_one_is_mod c
  rcases Nat.mod_two_eq_zero_or_one c with h | h
  · rw [h2, h]
    simp only [ne_eq, not_true_eq_false, ite_false, Nat.xor_zero]
    rw [Nat.shiftRight_one]
    constructor
    · omega
    · omega
  · rw [h2, h]
    simp only [ne_eq, one_ne_zero, not_false_eq_true, ite_true]
    constructor
    · intro h0
      have h3 := Nat.xor_eq_zero.mp h0
      rw [Nat.shiftRight_one] at h3
      omega
    · have h4 : c >>> 1 < 2 ^ 16 := by rw [Nat.shiftRight_one]; omega
      have h5 : (0x8408 : Nat) < 2 ^ 16 := by norm_num
      have h6 := Nat.xor_lt_two_pow h4 h5
      simpa using h6

/-- Eight CRC rounds with byte 0 keep a nonzero 16-bit state nonzero. -/
theorem calc_next_crc_byte_zero_preserves (c : Nat) (hc : c < 65536) (hne : c ≠ 0) :
    calc_next_crc_byte c 0 ≠ 0 ∧ calc_next_crc_byte c 0 < 65536 := by
  have aux : ∀ n, ∀ c : Nat, c < 65536 → c ≠ 0 →
      (crcRound^[n] (c, 0)).1 ≠ 0 ∧ (crcRound^[n] (c, 0)).1 < 65536 ∧
        (crcRound^[n] (c, 0)).2 = 0 := by
    intro n
    induction n with
    | zero =>
      intro c hc hne
      simpa using ⟨hne, hc⟩
    | succ n ih =>
      intro c hc hne
      rw [Function.iterate_succ_apply]
      have h1 := crcRound_zero_preserves c hc hne
      rw [crcRound_zero_snd] at h1 ⊢
      exact ih _ h1.2 h1.1
  exact ⟨(aux 8 c hc hne).1, (aux 8 c hc hne).2.1⟩

/-- Folding the CRC over trailing zero bytes keeps a nonzero state nonzero. -/
theorem foldl_crc_zeros_ne (m : Nat) :
    ∀ c : Nat, c < 65536 → c ≠ 0 →
      (List.replicate m 0).foldl calc_next_crc_byte c ≠ 0 := by
  induction m with
  | zero =>
    intro c _ hne
    simpa using hne
  | succ m ih =>
    intro c hc hne
    rw [List.replicate_succ, List.foldl_cons]
    have h := calc_next_crc_byte_zero_preserves c hc hne
    exact ih _ h.2 h.1

/-- Folding the CRC over zero bytes from state 0 stays 0. -/
theorem foldl_crc_zeros_zero (m : Nat) :
    (List.replicate m (0 : Nat)).foldl calc_next_crc_byte 0 = 0 := by
  induction m with
  | zero => rfl
  | succ m ih =>
    rw [List.replicate_succ, List.foldl_cons]
    have h00 : calc_next_crc_byte 0 0 = 0 := by decide
    rw [h00]
    exact ih

/-- Setting one position of an all-zero list splits it into three parts. -/
theorem replicate_set (n : Nat) : ∀ i h : Nat, i < n →
    (List.replicate n (0 : Nat)).set i h
      = List.replicate i 0 ++ h :: List.replicate (n - i - 1) 0 := by
  induction n with
  | zero => intro i h hi; omega
  | succ n ih =>
    intro i h hi
    cases i with
    | zero => simp [List.replicate_succ]
    | succ i =>
      rw [List.replicate_succ, List.set_cons_succ, ih i h (by omega)]
      simp [List.replicate_succ, Nat.succ_sub_succ]

/-- The CRC syndrome of a single flipped bit is nonzero. -/
theorem crc_syndrome_ne (n i k : Nat) (hi : i < n) (hk : k < 8) :
    ((List.replicate n (0 : Nat)).set i (1 <<< k)).foldl calc_next_crc_byte 0 ≠ 0 := by
  rw [replicate_set n i _ hi, List.foldl_append, foldl_crc_zeros_zero, List.foldl_cons]
  refine foldl_crc_zeros_ne _ _ ?_ ?_
  · interval_cases k <;> decide
  · interval_cases k <;> decide

/-- Every CRC round keeps the running value below 2^16. -/
theorem crcRound_fst_lt (p : Nat × Nat) (hc : p.1 < 65536) : (crcRound p).1 < 65536 := by
  obtain ⟨c, b⟩ := p
  simp only [crcRound]
  have h1 : c >>> 1 < 2 ^ 16 := by
    rw [Nat.shiftRight_one]
    simp at hc
    omega
  have h2 : (if ((c &&& 1) ^^^ (b &&& 1)) ≠ 0 then (0x8408 : Nat) else 0) < 2 ^ 16 := by
    split <;> norm_num
  have h3 := Nat.xor_lt_two_pow h1 h2
  simpa using h3

/-- The CRC byte step keeps the running value below 2^16. -/
theorem calc_next_crc_byte_lt (c b : Nat) (hc : c < 65536) :
    calc_next_crc_byte c b < 65536 := by
  have aux : ∀ n (p : Nat × Nat), p.1 < 65536 → (crcRound^[n] p).1 < 65536 := by
    intro n
    induction n with
    | zero => intro p hp; simpa using hp
    | succ n ih =>
      intro p hp
      rw [Function.iterate_succ_apply]
      exact ih _ (crcRound_fst_lt p hp)
  exact aux 8 (c, b) hc

/-- Every CRC-16 value is below 2^16, so its two-byte little-endian
encoding by `toBytes2` matches Python's `to_bytes(2, 'little')`. -/
theorem calc_crc16_lt (data : List Nat) : calc_crc16 data < 65536 := by
  unfold calc_crc16
  have aux : ∀ (xs : List Nat) (c : Nat), c < 65536 →
      xs.foldl calc_next_crc_byte c < 65536 := by
    intro xs
    induction xs with
    | nil => intro c hc; simpa using hc
    | cons x xs ih =>
      intro c hc
      rw [List.foldl_cons]
      exact ih _ (calc_next_crc_byte_lt c x hc)
  exact aux data 0xFFFF (by norm_num)

/-- Flipping one bit of one byte changes the CRC-16. -/
theorem calc_crc16_flip_ne (data : List Nat) (i k : Nat) (hi : i < data.length)
    (hk : k < 8) :
    calc_crc16 (data.set i (data.getD i 0 ^^^ (1 <<< k))) ≠ calc_crc16 data := by
  have hlen : data.length = ((List.replicate data.length 0).set i (1 <<< k)).length := by
    simp
  have hkey : calc_crc16 (data.set i (data.getD i 0 ^^^ (1 <<< k)))
      = calc_crc16 data
        ^^^ ((List.replicate data.length 0).set i (1 <<< k)).foldl calc_next_crc_byte 0 := by
    rw [set_eq_zipWith_xor data i _ hi]
    unfold calc_crc16
    rw [← foldl_crc_xor data _ hlen 0xFFFF 0, Nat.xor_zero]
  rw [hkey]
  intro heq
  have h2 : calc_crc16 data
      ^^^ (calc_crc16 data
            ^^^ ((List.replicate data.length 0).set i (1 <<< k)).foldl calc_next_crc_byte 0)
      = calc_crc16 data ^^^ calc_crc16 data := by rw [heq]
  rw [← Nat.xor_assoc, Nat.xor_self, Nat.zero_xor] at h2
  exact crc_syndrome_ne data.length i k hi hk h2

/-- The two-byte little-endian encoding is injective. -/
theorem toBytes2_inj {a b : Nat} (h : toBytes2 a = toBytes2 b) : a = b := by
  simp only [toBytes2, List.cons.injEq, and_true] at h
  omega

/-- C9: for every single valid response frame (one the decode step accepts,
with exactly `length + 12` bytes), flipping any one bit of any byte in the
inner-payload region (indices 10 to `8 + length - 1`) produces bytes on
which the decode step fails with the checksum error. -/
theorem C9_tamper_detection (command command_version : Nat) (rx p : List Nat)
    (i k : Nat)
    (hdec : send_request_rx command command_version rx = .ok (some p))
    (hlen : rx.length = uintLE (pySlice rx 6 7) + 12)
    (hi10 : 10 ≤ i) (hiL : i < 8 + uintLE (pySlice rx 6 7)) (hk : k < 8) :
    send_request_rx command command_version (rx.set i (rx.getD i 0 ^^^ (1 <<< k)))
      = .error .checksumFailed := by
  simp only [send_request_rx] at hdec ⊢
  set L := uintLE (pySlice rx 6 7) with hL
  have hrxlen : ¬(rx.length = 0) := by omega
  rw [if_neg hrxlen] at hdec
  have hETX : pySlice rx (8 + L) (9 + L) = [3] := by
    by_contra hne
    rw [if_pos hne] at hdec
    simp at hdec
  rw [if_neg (by simpa using hETX), if_neg (by omega : ¬(rx.length > L + 12))] at hdec
  simp only [rx_checks] at hdec
  have hcs : toBytes2 (calc_crc16 (rx.take (rx.length - 3)))
      = pySlice rx (rx.length - 3) (rx.length - 1) := by
    by_contra hne
    rw [if_pos hne] at hdec
    simp at hdec
  have hlen' : (rx.set i (rx.getD i 0 ^^^ (1 <<< k))).length = rx.length :=
    List.length_set rx i _
  have hL' : uintLE (pySlice (rx.set i (rx.getD i 0 ^^^ (1 <<< k))) 6 7) = L := by
    rw [pySlice_set_ge rx i _ 6 7 (by omega)]
  have hETX' : pySlice (rx.set i (rx.getD i 0 ^^^ (1 <<< k))) (8 + L) (9 + L) = [3] := by
    rw [pySlice_set_lt rx i _ (8 + L) (9 + L) (by omega)]
    exact hETX
  simp only [hlen', hL']
  rw [if_neg hrxlen, if_neg (by simpa using hETX'),
    if_neg (by omega : ¬(rx.length > L + 12))]
  simp only [rx_checks, hlen']
  have hrecv' : pySlice (rx.set i (rx.getD i 0 ^^^ (1 <<< k)))
      (rx.length - 3) (rx.length - 1)
      = pySlice rx (rx.length - 3) (rx.length - 1) :=
    pySlice_set_lt rx i _ _ _ (by omega)
  have htake : (rx.set i (rx.getD i 0 ^^^ (1 <<< k))).take (rx.length - 3)
      = (rx.take (rx.length - 3)).set i
          ((rx.take (rx.length - 3)).getD i 0 ^^^ (1 <<< k)) := by
    rw [List.set_take]
    congr 2
    rw [List.getD_eq_getElem?_getD, List.getD_eq_getElem?_getD,
      List.getElem?_take_of_lt (by omega)]
  have hne : toBytes2 (calc_crc16 ((rx.set i (rx.getD i 0 ^^^ (1 <<< k))).take
        (rx.length - 3)))
      ≠ pySlice (rx.set i (rx.getD i 0 ^^^ (1 <<< k))) (rx.length - 3)
          (rx.length - 1) := by
    rw [hrecv', ← hcs, htake]
    intro habs
    have hflip : calc_crc16 ((rx.take (rx.length - 3)).set i
          ((rx.take (rx.length - 3)).getD i 0 ^^^ (1 <<< k)))
        ≠ calc_crc16 (rx.take (rx.length - 3)) := by
      refine calc_crc16_flip_ne _ i k ?_ hk
      rw [List.length_take]
      omega
    exact hflip (toBytes2_inj habs)
  rw [if_pos hne]

set_option maxRecDepth 16384 in
/-- Witness for C9: flip the lowest bit of the first payload byte of a
concrete valid frame; decode rejects it with the checksum error. -/
theorem C9_tamper_detection_witness :
    send_request_rx 0x23 0x10
      ((tx_frame 1 0x23 0x10 [100, 0]).set 10
        ((tx_frame 1 0x23 0x10 [100, 0]).getD 10 0 ^^^ (1 <<< 0)))
      = .error .checksumFailed :=
  C9_tamper_detection 0x23 0x10 (tx_frame 1 0x23 0x10 [100, 0]) [100, 0] 10 0
    (by rfl) (by rfl) (by decide) (by decide) (by decide)

end LanUMB
